import Mathlib

/-!
Verification of the calendar PDF layout engine in
`remarkable_pdf_generator.py` (jonathanprocter/remarkablymoving).

The embedding models, faithfully to the Python source:

* `parseHM` — `datetime.datetime.strptime(s, '%H:%M').time()` (CPython
  `_strptime` regexes: hour `2[0-3]|[0-1]\d|\d`, minute `[0-5]\d|\d`,
  whole string must be consumed);
* `parseDate` — `datetime.datetime.strptime(s, '%Y-%m-%d').date()`
  (`\d\d\d\d` year, month `1[0-2]|0[1-9]|[1-9]`, day
  `3[01]|[12]\d|0[1-9]|[1-9]`, plus calendar validity of the day and
  `year >= 1`);
* `mkTime?` — the `datetime.time(h, m)` constructor, which raises
  `ValueError` outside `0 <= h <= 23`, `0 <= m <= 59`;
* `resolveEventTimes` — the start/end time resolution shared verbatim by
  `create_weekly_view_with_events` (lines 150-167) and
  `create_daily_view_with_events` (lines 305-322);
* `week_event_block` / `daily_event_block` — the per-event placement
  logic of the two renderers (lines 137-190 and 304-343);
* `generate_calendar_pdf` — the page-emission loop (lines 420-454);
* `transform_google_calendar_events` — the Google Calendar adapter
  (lines 461-496).

Arithmetic fidelity: Python computes `start_hour = hour + minute / 60`
and slot/height geometry in binary floating point.  All quantities that
feed comparisons are modelled exactly over the integers:

* times of day as minutes since midnight (`timeMin`), so the visibility
  check `7 <= start_hour <= 22` becomes `420 <= m <= 1320` (exact: the
  boundary cases have `minute = 0`, where the float is exact);
* slot indices scaled by 30: the Python float `start_slot =
  (start_hour - 7) * 2` equals `(timeMin - 420) / 30`, stored as the
  integer `startSlot30 = timeMin - 420` (30 × the row index);
* block heights scaled by a fixed positive factor.  On the week page
  `event_height = (end_slot - start_slot) * row_height - 0.5*mm` points
  with `row_height = (71mm - 7mm)/31`; writing `dMin` for the end/start
  difference in minutes this is `mm * (128*dMin - 930) / 1860`, so the
  integer `128*dMin - 930` is the height in units of `mm/1860` and has
  the same sign as the float (the nearest integer `dMin` to the float
  zero-crossing keeps a slack many orders of magnitude above the float
  rounding error).  On the day page `event_height = (end_slot -
  start_slot) * (115mm/31) - 1*mm = mm * (115*dMin - 930) / 930`.
-/

/-- Result of running a fragment of Python code: either a value or an
uncaught exception carrying its message.  Mirrors `Except` but with a
derivable `DecidableEq` so closed runs can be checked by `decide`. -/
inductive PyResult (α : Type) where
  | ok (val : α)
  | exn (msg : String)
  deriving DecidableEq, Repr

instance : Monad PyResult where
  pure := PyResult.ok
  bind m f := match m with
    | .ok a => f a
    | .exn e => .exn e

/-- A time of day as stored by `datetime.time`. -/
structure PyTime where
  hour : Nat
  minute : Nat
  deriving DecidableEq, Repr

/-- Minutes since midnight. -/
def timeMin (t : PyTime) : Int := 60 * (t.hour : Int) + t.minute

/-- The `datetime.time(hour, minute)` constructor: `none` models the
`ValueError` raised outside `0 <= hour <= 23`, `0 <= minute <= 59`. -/
def mkTime? (h m : Int) : Option PyTime :=
  if 0 ≤ h ∧ h ≤ 23 ∧ 0 ≤ m ∧ m ≤ 59 then some ⟨h.toNat, m.toNat⟩ else none

/-- A calendar date as stored by `datetime.date`. -/
structure PDate where
  year : Nat
  month : Nat
  day : Nat
  deriving DecidableEq, Repr

def isLeapYear (y : Nat) : Bool :=
  y % 4 == 0 && (y % 100 != 0 || y % 400 == 0)

def daysInMonth (y m : Nat) : Nat :=
  if m = 2 then (if isLeapYear y then 29 else 28)
  else if m = 4 ∨ m = 6 ∨ m = 9 ∨ m = 11 then 30
  else 31

/-- Days in all years strictly before year `y` (proleptic Gregorian). -/
def daysBeforeYear (y : Nat) : Nat :=
  let n := y - 1
  365 * n + n / 4 + n / 400 - n / 100

/-- Days in year `y` strictly before month `m`. -/
def daysBeforeMonth (y m : Nat) : Nat :=
  (List.range (m - 1)).foldl (fun acc k => acc + daysInMonth y (k + 1)) 0

/-- Python's `date.toordinal()`: day count with 0001-01-01 ↦ 1. -/
def toOrdinal (d : PDate) : Nat :=
  daysBeforeYear d.year + daysBeforeMonth d.year d.month + d.day

/-- Python `(a - b).days` for two `datetime.date` values. -/
def dateDiffDays (a b : PDate) : Int := (toOrdinal a : Int) - (toOrdinal b : Int)

/-- Successor date, rolling over month and year ends. -/
def nextDay (d : PDate) : PDate :=
  if d.day < daysInMonth d.year d.month then ⟨d.year, d.month, d.day + 1⟩
  else if d.month < 12 then ⟨d.year, d.month + 1, 1⟩
  else ⟨d.year + 1, 1, 1⟩

/-- Python `d + datetime.timedelta(days = n)` for a valid date `d`. -/
def addDays (d : PDate) : Nat → PDate
  | 0 => d
  | n + 1 => nextDay (addDays d n)

/-- Numeric value of a decimal digit character, if it is one (the
strptime regexes only ever match the ASCII digits, code points 48-57). -/
def digitVal? (c : Char) : Option Nat :=
  if 48 ≤ c.toNat ∧ c.toNat ≤ 57 then some (c.toNat - 48) else none

/-- Match the `%H` field: two digits when they form a value `<= 23`
(regex branches `2[0-3]|[0-1]\d`), else one digit (branch `\d`). -/
def parseHourField : List Char → Option (Nat × List Char)
  | c1 :: c2 :: rest =>
    match digitVal? c1, digitVal? c2 with
    | some d1, some d2 =>
      if 10 * d1 + d2 ≤ 23 then some (10 * d1 + d2, rest)
      else some (d1, c2 :: rest)
    | some d1, none => some (d1, c2 :: rest)
    | none, _ => none
  | [c1] => (digitVal? c1).map (fun d => (d, []))
  | [] => none

/-- Match the `%M` field: two digits when they form a value `<= 59`
(regex branch `[0-5]\d`), else one digit (branch `\d`). -/
def parseMinuteField : List Char → Option (Nat × List Char)
  | c1 :: c2 :: rest =>
    match digitVal? c1, digitVal? c2 with
    | some d1, some d2 =>
      if 10 * d1 + d2 ≤ 59 then some (10 * d1 + d2, rest)
      else some (d1, c2 :: rest)
    | some d1, none => some (d1, c2 :: rest)
    | none, _ => none
  | [c1] => (digitVal? c1).map (fun d => (d, []))
  | [] => none

/-- Model of `datetime.datetime.strptime(s, '%H:%M').time()`; `none` models the
`ValueError` on any mismatch or leftover input. -/
def parseHM (s : String) : Option PyTime :=
  match parseHourField s.data with
  | some (h, ':' :: rest) =>
    match parseMinuteField rest with
    | some (m, []) => some ⟨h, m⟩
    | _ => none
  | _ => none

/-- Match the `%Y` field: exactly four digits. -/
def parseYearField : List Char → Option (Nat × List Char)
  | a :: b :: c :: d :: rest =>
    match digitVal? a, digitVal? b, digitVal? c, digitVal? d with
    | some x, some y, some z, some w => some (1000 * x + 100 * y + 10 * z + w, rest)
    | _, _, _, _ => none
  | _ => none

/-- Match the `%m` field: two digits when they form a value in `1..12`
(regex branches `1[0-2]|0[1-9]`), else one digit in `1..9`. -/
def parseMonthField : List Char → Option (Nat × List Char)
  | c1 :: c2 :: rest =>
    match digitVal? c1, digitVal? c2 with
    | some d1, some d2 =>
      if 1 ≤ 10 * d1 + d2 ∧ 10 * d1 + d2 ≤ 12 then some (10 * d1 + d2, rest)
      else if 1 ≤ d1 then some (d1, c2 :: rest)
      else none
    | some d1, none => if 1 ≤ d1 then some (d1, c2 :: rest) else none
    | none, _ => none
  | [c1] =>
    match digitVal? c1 with
    | some d1 => if 1 ≤ d1 then some (d1, []) else none
    | none => none
  | [] => none

/-- Match the `%d` field: two digits when they form a value in `1..31`
(regex branches `3[01]|[12]\d|0[1-9]`), else one digit in `1..9`. -/
def parseDayField : List Char → Option (Nat × List Char)
  | c1 :: c2 :: rest =>
    match digitVal? c1, digitVal? c2 with
    | some d1, some d2 =>
      if 1 ≤ 10 * d1 + d2 ∧ 10 * d1 + d2 ≤ 31 then some (10 * d1 + d2, rest)
      else if 1 ≤ d1 then some (d1, c2 :: rest)
      else none
    | some d1, none => if 1 ≤ d1 then some (d1, c2 :: rest) else none
    | none, _ => none
  | [c1] =>
    match digitVal? c1 with
    | some d1 => if 1 ≤ d1 then some (d1, []) else none
    | none => none
  | [] => none

/-- Model of `datetime.datetime.strptime(s, '%Y-%m-%d').date()`; `none` models
the `ValueError` on mismatch, leftover input, a day invalid for the
month, or year 0. -/
def parseDate (s : String) : Option PDate :=
  match parseYearField s.data with
  | some (y, '-' :: r1) =>
    match parseMonthField r1 with
    | some (mo, '-' :: r2) =>
      match parseDayField r2 with
      | some (d, []) =>
        if 1 ≤ y ∧ d ≤ daysInMonth y mo then some ⟨y, mo, d⟩ else none
      | _ => none
    | _ => none
  | _ => none

/-- A raw event dictionary as consumed by the renderers: each field is
`some v` when the corresponding key is present (the source only ever
stores strings in these keys, and an int in `duration`).  `etype`
stands for the `type` key. -/
structure RawEvent where
  title : Option String := none
  summary : Option String := none
  date : Option String := none
  start_time : Option String := none
  time : Option String := none
  end_time : Option String := none
  duration : Option Int := none
  description : Option String := none
  location : Option String := none
  etype : Option String := none
  deriving DecidableEq, Repr

/-- Python `event.get('start_time', event.get('time', '09:00'))`. -/
def startTimeStr (e : RawEvent) : String :=
  e.start_time.getD (e.time.getD "09:00")

/-- The parsed start time with the 09:00 fallback on parse failure
(lines 153-156 / 308-311). -/
def resolvedStartTime (e : RawEvent) : PyTime :=
  (parseHM (startTimeStr e)).getD ⟨9, 0⟩

/-- Start/end time resolution, duplicated verbatim in
`create_weekly_view_with_events` (lines 150-167) and
`create_daily_view_with_events` (lines 305-322).  When `end_time` is
missing or empty the end is `start + duration` minutes (Python floor
division and nonnegative modulus) with the hour capped at 22; when it
is present but unparseable the fallback constructs
`datetime.time(start.hour + 1, start.minute)`, which raises
`ValueError` if `start.hour = 23`. -/
def resolveEventTimes (e : RawEvent) : PyResult (PyTime × PyTime) :=
  let st := resolvedStartTime e
  let endStr := e.end_time.getD ""
  if endStr = "" then
    let dur := e.duration.getD 60
    let endHour : Int := (st.hour : Int) + ((st.minute : Int) + dur).fdiv 60
    let endMinute : Int := ((st.minute : Int) + dur).emod 60
    match mkTime? (min endHour 22) endMinute with
    | some t => .ok (st, t)
    | none => .exn "ValueError: hour must be in 0..23"
  else
    match parseHM endStr with
    | some t => .ok (st, t)
    | none =>
      match mkTime? ((st.hour : Int) + 1) (st.minute : Int) with
      | some t => .ok (st, t)
      | none => .exn "ValueError: hour must be in 0..23"

/-- Week-page event block height in units of `mm/1860`:
`(end_slot - start_slot) * row_height - 0.5*mm` with
`row_height = 64*mm/31` and `end_slot - start_slot = dMin/30`. -/
def weekEventHeightU (dMin : Int) : Int := 128 * dMin - 930

/-- Day-page event block height in units of `mm/930`:
`(end_slot - start_slot) * row_height - 1*mm` with
`row_height = 115*mm/31`. -/
def dayEventHeightU (dMin : Int) : Int := 115 * dMin - 930

/-- An event rectangle drawn on the week page.  `dayOffset` is the
column (0 = Monday); `startSlot30`/`endSlot30` are 30 × the Python
float slot indices (`start_slot = (start_hour - 7) * 2`); `heightU` is
the drawn height in units of `mm/1860`. -/
structure WeekBlock where
  dayOffset : Int
  startSlot30 : Int
  endSlot30 : Int
  heightU : Int
  deriving DecidableEq, Repr

/-- An event rectangle drawn on a day page; fields as in `WeekBlock`,
with `heightU` in units of `mm/930`. -/
structure DayBlock where
  startSlot30 : Int
  endSlot30 : Int
  heightU : Int
  deriving DecidableEq, Repr

/-- Per-event placement of `create_weekly_view_with_events`
(lines 137-190): skip on missing/empty/unparseable date, skip when the
date is outside `[week_start, week_start + 7)`, resolve times (which
may raise), skip when `start_hour` is outside `7 <= start_hour <= 22`,
and draw only when the computed height is strictly positive. -/
def week_event_block (weekStart : PDate) (e : RawEvent) :
    PyResult (Option WeekBlock) :=
  match e.date with
  | none => .ok none
  | some s =>
    if s = "" then .ok none
    else
      match parseDate s with
      | none => .ok none
      | some d =>
        let off := dateDiffDays d weekStart
        if 0 ≤ off ∧ off < 7 then
          match resolveEventTimes e with
          | .exn msg => .exn msg
          | .ok (st, en) =>
            let sMin := timeMin st
            let eMin := timeMin en
            if 420 ≤ sMin ∧ sMin ≤ 1320 then
              let h := weekEventHeightU (eMin - sMin)
              if 0 < h then .ok (some ⟨off, sMin - 420, eMin - 420, h⟩)
              else .ok none
            else .ok none
        else .ok none

/-- Per-event placement of `create_daily_view_with_events`
(lines 304-343): the event list is already date-filtered, so only the
time window and positive-height checks remain. -/
def daily_event_block (e : RawEvent) : PyResult (Option DayBlock) :=
  match resolveEventTimes e with
  | .exn msg => .exn msg
  | .ok (st, en) =>
    let sMin := timeMin st
    let eMin := timeMin en
    if 420 ≤ sMin ∧ sMin ≤ 1320 then
      let h := dayEventHeightU (eMin - sMin)
      if 0 < h then .ok (some ⟨sMin - 420, eMin - 420, h⟩)
      else .ok none
    else .ok none

/-- The day filter of `generate_calendar_pdf` (lines 440-448): keep an
event for date `d` when its `date` string is present, truthy, parses,
and equals `d`. -/
def eventOnDate (d : PDate) (e : RawEvent) : Bool :=
  match e.date with
  | none => false
  | some s =>
    if s = "" then false
    else
      match parseDate s with
      | some pd => decide (pd = d)
      | none => false

/-- One page of the generated document: the week overview with its
drawn blocks, or the day page for 0-based weekday `idx` with its date
and drawn blocks. -/
inductive Page where
  | week (blocks : List WeekBlock)
  | day (idx : Nat) (date : PDate) (blocks : List DayBlock)
  deriving DecidableEq, Repr

/-- Page orientation, from the `setPageSize` calls (lines 33 and 216). -/
inductive PageOrientation where
  | landscape
  | portrait
  deriving DecidableEq, Repr

def pageOrient : Page → PageOrientation
  | .week _ => .landscape
  | .day _ _ _ => .portrait

/-- The 0-based weekday index of a day page. -/
def pageDayIndex : Page → Option Nat
  | .week _ => none
  | .day i _ _ => some i

/-- Anchor names registered for a page by `generate_calendar_pdf`:
`bookmarkPage("weekly_view")` (line 430) and
`bookmarkPage(f"day_{i+1}")` (line 450). -/
def pageBookmarks : Page → List String
  | .week _ => ["weekly_view"]
  | .day i _ _ => ["day_" ++ Nat.repr (i + 1)]

/-- Internal link targets emitted while drawing a page:
`create_weekly_view_with_events` calls `linkRect` nowhere, and
`create_daily_view_with_events` emits exactly one link, to
`"weekly_view"` (line 236). -/
def pageLinkTargets : Page → List String
  | .week _ => []
  | .day _ _ _ => ["weekly_view"]

/-- The week page of `generate_calendar_pdf`: draw every event's block
in input order (an exception aborts the page and the document). -/
def weekPageBlocks (weekStart : PDate) (events : List RawEvent) :
    PyResult (List WeekBlock) := do
  let obs ← events.mapM (week_event_block weekStart)
  pure (obs.filterMap id)

/-- One day page of `generate_calendar_pdf` (loop body, lines 436-452):
filter the events to the day's date, then draw each block. -/
def mkDayPage (weekStart : PDate) (events : List RawEvent) (i : Nat) :
    PyResult Page := do
  let d := addDays weekStart i
  let obs ← (events.filter (eventOnDate d)).mapM daily_event_block
  pure (.day i d (obs.filterMap id))

/-- The function `generate_calendar_pdf` (lines 420-454): the week page, then the
seven day pages for Monday..Sunday (the Python `for` loop over the
fixed seven-element day list, unrolled). -/
def generate_calendar_pdf (weekStart : PDate) (events : List RawEvent) :
    PyResult (List Page) := do
  let wb ← weekPageBlocks weekStart events
  let p1 ← mkDayPage weekStart events 0
  let p2 ← mkDayPage weekStart events 1
  let p3 ← mkDayPage weekStart events 2
  let p4 ← mkDayPage weekStart events 3
  let p5 ← mkDayPage weekStart events 4
  let p6 ← mkDayPage weekStart events 5
  let p7 ← mkDayPage weekStart events 6
  pure [.week wb, p1, p2, p3, p4, p5, p6, p7]

/-- The nested `start`/`end` object of a Google-Calendar-shaped event:
each field is `some v` when the corresponding key is present. -/
structure GTime where
  dateTime : Option String := none
  date : Option String := none
  deriving DecidableEq, Repr

/-- A Google-Calendar-shaped raw event; `endt` stands for the `end`
key (a Lean keyword). -/
structure GEvent where
  summary : Option String := none
  description : Option String := none
  location : Option String := none
  start : Option GTime := none
  endt : Option GTime := none
  deriving DecidableEq, Repr

/-- A `datetime.datetime`: wall-clock fields plus an optional UTC
offset in minutes (`none` = naive). -/
structure PyDateTime where
  date : PDate
  hour : Nat
  minute : Nat
  second : Nat
  offsetMin : Option Int
  deriving DecidableEq, Repr

/-- Exactly two decimal digits. -/
def parseTwoDigits : List Char → Option (Nat × List Char)
  | a :: b :: rest =>
    match digitVal? a, digitVal? b with
    | some x, some y => some (10 * x + y, rest)
    | _, _ => none
  | _ => none

/-- Offset suffix `+HH:MM` or `-HH:MM` (minutes east of UTC). -/
def parseOffset : List Char → Option Int
  | sgn :: rest =>
    if sgn = '+' ∨ sgn = '-' then
      match parseTwoDigits rest with
      | some (oh, ':' :: r2) =>
        match parseTwoDigits r2 with
        | some (om, []) =>
          let v : Int := 60 * oh + om
          some (if sgn = '-' then -v else v)
        | _ => none
      | _ => none
    else none
  | [] => none

/-- Time-of-day part `HH:MM[:SS]` with optional offset suffix. -/
def parseIsoTimePart (cs : List Char) : Option (Nat × Nat × Nat × Option Int) :=
  match parseTwoDigits cs with
  | some (h, ':' :: r1) =>
    if h ≤ 23 then
      match parseTwoDigits r1 with
      | some (m, rest) =>
        if m ≤ 59 then
          match rest with
          | [] => some (h, m, 0, none)
          | ':' :: r2 =>
            match parseTwoDigits r2 with
            | some (sec, r3) =>
              if sec ≤ 59 then
                match r3 with
                | [] => some (h, m, sec, none)
                | _ => (parseOffset r3).map (fun o => (h, m, sec, some o))
              else none
            | _ => none
          | _ => (parseOffset rest).map (fun o => (h, m, 0, some o))
      else none
      | _ => none
    else none
  | _ => none

/-- Model of `datetime.datetime.fromisoformat` on the subset of the
ISO grammar this program feeds it: `YYYY-MM-DD` optionally followed by
a one-character separator and `HH:MM[:SS][±HH:MM]` (fractional seconds
are not modelled).  `exn` models the `ValueError` on mismatch. -/
def fromisoformat (s : String) : PyResult PyDateTime :=
  match parseYearField s.data with
  | some (y, '-' :: r1) =>
    match parseTwoDigits r1 with
    | some (mo, '-' :: r2) =>
      match parseTwoDigits r2 with
      | some (d, rest) =>
        if 1 ≤ y ∧ 1 ≤ mo ∧ mo ≤ 12 ∧ 1 ≤ d ∧ d ≤ daysInMonth y mo then
          match rest with
          | [] => .ok ⟨⟨y, mo, d⟩, 0, 0, 0, none⟩
          | _ :: timePart =>
            match parseIsoTimePart timePart with
            | some (h, mi, sec, off) => .ok ⟨⟨y, mo, d⟩, h, mi, sec, off⟩
            | none => .exn "ValueError: Invalid isoformat string"
        else .exn "ValueError: Invalid isoformat string"
      | _ => .exn "ValueError: Invalid isoformat string"
    | _ => .exn "ValueError: Invalid isoformat string"
  | _ => .exn "ValueError: Invalid isoformat string"

/-- The `.replace('Z', '+00:00')` normalization applied before parsing. -/
def replaceZ (s : String) : String := s.replace "Z" "+00:00"

/-- Wall-clock seconds since the epoch of `toOrdinal` day 0. -/
def dtWallSeconds (a : PyDateTime) : Int :=
  86400 * (toOrdinal a.date : Int) + 3600 * (a.hour : Int)
    + 60 * (a.minute : Int) + (a.second : Int)

/-- Python `int((a - b).total_seconds() / 60)`: `datetime` subtraction raises
`TypeError` when exactly one operand is naive; otherwise the offset is
subtracted from the wall clock and the minute count truncates toward
zero (Python `int()` on the float quotient). -/
def dtDiffMinutes (a b : PyDateTime) : PyResult Int :=
  match a.offsetMin, b.offsetMin with
  | none, none => .ok (Int.tdiv (dtWallSeconds a - dtWallSeconds b) 60)
  | some oa, some ob =>
    .ok (Int.tdiv ((dtWallSeconds a - 60 * oa) - (dtWallSeconds b - 60 * ob)) 60)
  | _, _ => .exn "TypeError: cannot subtract offset-naive and offset-aware datetimes"

/-- Zero-padded two-digit decimal rendering (`%H`, `%M`, `%m`, `%d`). -/
def pad2 (n : Nat) : String :=
  if n < 10 then "0" ++ Nat.repr n else Nat.repr n

/-- Zero-padded four-digit decimal rendering (`%Y` on glibc). -/
def pad4 (n : Nat) : String :=
  if n < 10 then "000" ++ Nat.repr n
  else if n < 100 then "00" ++ Nat.repr n
  else if n < 1000 then "0" ++ Nat.repr n
  else Nat.repr n

/-- Python `strftime('%Y-%m-%d')`. -/
def strftimeDate (d : PDate) : String :=
  pad4 d.year ++ "-" ++ pad2 d.month ++ "-" ++ pad2 d.day

/-- Python `strftime('%H:%M')` (prints the stored wall clock; the offset is
not applied). -/
def strftimeHM (h m : Nat) : String := pad2 h ++ ":" ++ pad2 m

/-- The body of the `transform_google_calendar_events` loop for one
event (lines 465-494): the `dateTime` branch parses both timestamps
(`event['end']['dateTime']` raises `KeyError` when absent), the `date`
branch substitutes the documented 09:00-17:00 all-day span, and an
event whose `start` has neither key is skipped (`ok none`). -/
def transformOneGoogleEvent (g : GEvent) : PyResult (Option RawEvent) :=
  let st := g.start.getD ⟨none, none⟩
  match st.dateTime with
  | some sdt =>
    match g.endt with
    | none => .exn "KeyError: end"
    | some ge =>
      match ge.dateTime with
      | none => .exn "KeyError: dateTime"
      | some edt =>
        match fromisoformat (replaceZ sdt) with
        | .exn m => .exn m
        | .ok sd =>
          match fromisoformat (replaceZ edt) with
          | .exn m => .exn m
          | .ok ed =>
            match dtDiffMinutes ed sd with
            | .exn m => .exn m
            | .ok dur =>
              .ok (some
                { title := some (g.summary.getD "Untitled Event")
                  date := some (strftimeDate sd.date)
                  start_time := some (strftimeHM sd.hour sd.minute)
                  end_time := some (strftimeHM ed.hour ed.minute)
                  duration := some dur
                  description := some (g.description.getD "")
                  location := some (g.location.getD "")
                  etype := some "appointment" })
  | none =>
    match st.date with
    | some ds =>
      .ok (some
        { title := some (g.summary.getD "Untitled Event")
          date := some ds
          start_time := some "09:00"
          end_time := some "17:00"
          duration := some 480
          description := some (g.description.getD "")
          location := some (g.location.getD "")
          etype := some "appointment" })
    | none => .ok none

/-- The function `transform_google_calendar_events` (lines 461-496): transform each
event in order, skipping start-keyless events; an uncaught exception
aborts the whole call. -/
def transform_google_calendar_events : List GEvent → PyResult (List RawEvent)
  | [] => .ok []
  | g :: gs =>
    match transformOneGoogleEvent g with
    | .exn m => .exn m
    | .ok none => transform_google_calendar_events gs
    | .ok (some r) =>
      match transform_google_calendar_events gs with
      | .exn m => .exn m
      | .ok rs => .ok (r :: rs)

/-- Presence of the eight keys every transformed record carries. -/
def hasAllOutputKeys (r : RawEvent) : Prop :=
  r.title.isSome ∧ r.date.isSome ∧ r.start_time.isSome ∧ r.end_time.isSome ∧
    r.duration.isSome ∧ r.description.isSome ∧ r.location.isSome ∧ r.etype.isSome

instance (r : RawEvent) : Decidable (hasAllOutputKeys r) := by
  unfold hasAllOutputKeys; infer_instance

/-- The test `'dateTime' in event.get('start', {}) or 'date' in
event.get('start', {})` deciding whether the loop keeps the event. -/
def gHasStartKey (g : GEvent) : Bool :=
  let st := g.start.getD ⟨none, none⟩
  st.dateTime.isSome || st.date.isSome

/-- C1 witness input: an event on the week-start date at 09:00 for 60
minutes with no explicit end time. -/
def c1WitnessEvent : RawEvent :=
  { date := some "2024-01-01", start_time := some "09:00", duration := some 60 }

/-- C2 failing input: a parseable 23:30 start with an unparseable end
time, which makes the fallback construct `datetime.time(24, 30)`. -/
def c2FailingEvent : RawEvent :=
  { date := some "2024-01-01", start_time := some "23:30", end_time := some "oops" }

/-- C3 counterexample input: missing `end_time` and `duration = 0`. -/
def c3ZeroDurationEvent : RawEvent :=
  { date := some "2024-01-01", start_time := some "09:00", duration := some 0 }

/-- C3 witness input: an ordinary one-hour event that is drawn. -/
def c3DrawnEvent : RawEvent :=
  { date := some "2024-01-01", start_time := some "10:00", end_time := some "11:00" }

/-- C4 counterexample input: a parseable inverted start/end pair. -/
def c4InvertedEvent : RawEvent :=
  { date := some "2024-01-01", start_time := some "10:00", end_time := some "09:00" }

/-- C4 witness input: a present but unparseable end time. -/
def c4BadEndEvent : RawEvent :=
  { date := some "2024-01-01", start_time := some "10:00", end_time := some "zz" }

/-- C5 counterexample input: start exactly at 22:00. -/
def c5Start2200Event : RawEvent :=
  { date := some "2024-01-01", start_time := some "22:00", end_time := some "22:30" }

/-- C5 witness input: start before the visible window. -/
def c5EarlyEvent : RawEvent :=
  { date := some "2024-01-01", start_time := some "06:00" }

/-- The eight pages produced for week 2024-01-01 with no events. -/
def c6EmptyWeekPages : List Page :=
  [.week [], .day 0 ⟨2024, 1, 1⟩ [], .day 1 ⟨2024, 1, 2⟩ [],
   .day 2 ⟨2024, 1, 3⟩ [], .day 3 ⟨2024, 1, 4⟩ [], .day 4 ⟨2024, 1, 5⟩ [],
   .day 5 ⟨2024, 1, 6⟩ [], .day 6 ⟨2024, 1, 7⟩ []]

/-- The eight pages produced for week 2025-06-02 with no events. -/
def c6wPages : List Page :=
  [.week [], .day 0 ⟨2025, 6, 2⟩ [], .day 1 ⟨2025, 6, 3⟩ [],
   .day 2 ⟨2025, 6, 4⟩ [], .day 3 ⟨2025, 6, 5⟩ [], .day 4 ⟨2025, 6, 6⟩ [],
   .day 5 ⟨2025, 6, 7⟩ [], .day 6 ⟨2025, 6, 8⟩ []]

/-- C7 counterexample input: a record that raises during the week page. -/
def c7CrashEvent : RawEvent :=
  { date := some "2024-03-04", start_time := some "23:00", end_time := some "nope" }

/-- The eight pages produced for week 2025-03-03 with no events. -/
def c7wPages : List Page :=
  [.week [], .day 0 ⟨2025, 3, 3⟩ [], .day 1 ⟨2025, 3, 4⟩ [],
   .day 2 ⟨2025, 3, 5⟩ [], .day 3 ⟨2025, 3, 6⟩ [], .day 4 ⟨2025, 3, 7⟩ [],
   .day 5 ⟨2025, 3, 8⟩ [], .day 6 ⟨2025, 3, 9⟩ []]

/-- C9 witness input: an all-day Google event (`start` has only `date`). -/
def c9AllDayGEvent : GEvent := { start := some { date := some "2024-01-01" } }

/-- C10 witness input: an event whose `start` has neither key. -/
def c10NoStartKeyGEvent : GEvent := { description := some "keyless" }

/-- C10 witness input: an all-day Google event with a summary. -/
def c10AllDayGEvent : GEvent :=
  { summary := some "AllDay", start := some { date := some "2024-05-06" } }

/-- The record `transform_google_calendar_events` produces for
`c10AllDayGEvent`. -/
def c10OutputRecord : RawEvent :=
  { title := some "AllDay", date := some "2024-05-06",
    start_time := some "09:00", end_time := some "17:00",
    duration := some 480, description := some "", location := some "",
    etype := some "appointment" }

theorem pyBind_ok {α β : Type} {x : PyResult α} {f : α → PyResult β} {b : β}
    (h : x >>= f = .ok b) : ∃ a, x = .ok a ∧ f a = .ok b := by
  cases x with
  | ok a => exact ⟨a, rfl, h⟩
  | exn m => exact PyResult.noConfusion h

theorem digitVal?_le {c : Char} {d : Nat} (h : digitVal? c = some d) : d ≤ 9 := by
  unfold digitVal? at h
  split at h
  · simp only [Option.some.injEq] at h
    omega
  · exact Option.noConfusion h

theorem parseHourField_le {cs r : List Char} {h : Nat}
    (hp : parseHourField cs = some (h, r)) : h ≤ 23 := by
  match cs with
  | [] => exact Option.noConfusion hp
  | [c1] =>
    simp only [parseHourField, Option.map_eq_some'] at hp
    obtain ⟨d1, h1, hpair⟩ := hp
    simp only [Prod.mk.injEq] at hpair
    obtain ⟨hd, -⟩ := hpair
    subst hd
    have := digitVal?_le h1
    omega
  | c1 :: c2 :: rest =>
    simp only [parseHourField] at hp
    rcases h1 : digitVal? c1 with _ | d1 <;> rcases h2 : digitVal? c2 with _ | d2 <;>
      simp [h1, h2] at hp
    · obtain ⟨hd, -⟩ := hp
      have := digitVal?_le h1
      omega
    · split at hp <;>
        simp only [Option.some.injEq, Prod.mk.injEq] at hp <;>
        obtain ⟨hd, -⟩ := hp <;>
        have := digitVal?_le h1 <;>
        omega

theorem parseMinuteField_le {cs r : List Char} {m : Nat}
    (hp : parseMinuteField cs = some (m, r)) : m ≤ 59 := by
  match cs with
  | [] => exact Option.noConfusion hp
  | [c1] =>
    simp only [parseMinuteField, Option.map_eq_some'] at hp
    obtain ⟨d1, h1, hpair⟩ := hp
    simp only [Prod.mk.injEq] at hpair
    obtain ⟨hd, -⟩ := hpair
    subst hd
    have := digitVal?_le h1
    omega
  | c1 :: c2 :: rest =>
    simp only [parseMinuteField] at hp
    rcases h1 : digitVal? c1 with _ | d1 <;> rcases h2 : digitVal? c2 with _ | d2 <;>
      simp [h1, h2] at hp
    · obtain ⟨hd, -⟩ := hp
      have := digitVal?_le h1
      omega
    · split at hp <;>
        simp only [Option.some.injEq, Prod.mk.injEq] at hp <;>
        obtain ⟨hd, -⟩ := hp <;>
        have := digitVal?_le h1 <;>
        omega

theorem parseHM_valid {s : String} {t : PyTime} (h : parseHM s = some t) :
    t.hour ≤ 23 ∧ t.minute ≤ 59 := by
  unfold parseHM at h
  split at h
  · rename_i hhour
    split at h
    · rename_i hmin
      cases h
      exact ⟨parseHourField_le hhour, parseMinuteField_le hmin⟩
    · exact Option.noConfusion h
  · exact Option.noConfusion h

theorem resolvedStartTime_valid (e : RawEvent) :
    (resolvedStartTime e).hour ≤ 23 ∧ (resolvedStartTime e).minute ≤ 59 := by
  unfold resolvedStartTime
  rcases h : parseHM (startTimeStr e) with _ | t
  · simp
  · simpa using parseHM_valid h

theorem mkDayPage_ok {ws : PDate} {events : List RawEvent} {i : Nat} {p : Page}
    (h : mkDayPage ws events i = .ok p) :
    ∃ bs, p = .day i (addDays ws i) bs := by
  unfold mkDayPage at h
  obtain ⟨obs, -, hpure⟩ := pyBind_ok h
  exact ⟨obs.filterMap id, (PyResult.ok.injEq .. ▸ hpure).symm⟩

theorem generate_ok_shape {ws : PDate} {events : List RawEvent} {ps : List Page}
    (h : generate_calendar_pdf ws events = .ok ps) :
    ∃ wb b0 b1 b2 b3 b4 b5 b6,
      ps = [.week wb,
            .day 0 (addDays ws 0) b0, .day 1 (addDays ws 1) b1,
            .day 2 (addDays ws 2) b2, .day 3 (addDays ws 3) b3,
            .day 4 (addDays ws 4) b4, .day 5 (addDays ws 5) b5,
            .day 6 (addDays ws 6) b6] := by
  unfold generate_calendar_pdf at h
  obtain ⟨wb, -, h⟩ := pyBind_ok h
  obtain ⟨p1, hp1, h⟩ := pyBind_ok h
  obtain ⟨p2, hp2, h⟩ := pyBind_ok h
  obtain ⟨p3, hp3, h⟩ := pyBind_ok h
  obtain ⟨p4, hp4, h⟩ := pyBind_ok h
  obtain ⟨p5, hp5, h⟩ := pyBind_ok h
  obtain ⟨p6, hp6, h⟩ := pyBind_ok h
  obtain ⟨p7, hp7, h⟩ := pyBind_ok h
  obtain ⟨b0, rfl⟩ := mkDayPage_ok hp1
  obtain ⟨b1, rfl⟩ := mkDayPage_ok hp2
  obtain ⟨b2, rfl⟩ := mkDayPage_ok hp3
  obtain ⟨b3, rfl⟩ := mkDayPage_ok hp4
  obtain ⟨b4, rfl⟩ := mkDayPage_ok hp5
  obtain ⟨b5, rfl⟩ := mkDayPage_ok hp6
  obtain ⟨b6, rfl⟩ := mkDayPage_ok hp7
  refine ⟨wb, b0, b1, b2, b3, b4, b5, b6, ?_⟩
  exact (PyResult.ok.injEq .. ▸ h).symm

/-- Branch equation: `week_event_block` once the date is present,
non-empty, parsed, and the times resolved. -/
theorem week_event_block_resolved {ws : PDate} {e : RawEvent} {s : String}
    {d : PDate} {st en : PyTime}
    (hdate : e.date = some s) (hs : ¬ s = "") (hpd : parseDate s = some d)
    (hres : resolveEventTimes e = .ok (st, en)) :
    week_event_block ws e =
      if 0 ≤ dateDiffDays d ws ∧ dateDiffDays d ws < 7 then
        if 420 ≤ timeMin st ∧ timeMin st ≤ 1320 then
          if 0 < weekEventHeightU (timeMin en - timeMin st) then
            .ok (some ⟨dateDiffDays d ws, timeMin st - 420, timeMin en - 420,
                       weekEventHeightU (timeMin en - timeMin st)⟩)
          else .ok none
        else .ok none
      else .ok none := by
  simp only [week_event_block, hdate, hpd, hres]
  rw [if_neg hs]

/-- Branch equation: `daily_event_block` once the times resolved. -/
theorem daily_event_block_resolved {e : RawEvent} {st en : PyTime}
    (hres : resolveEventTimes e = .ok (st, en)) :
    daily_event_block e =
      if 420 ≤ timeMin st ∧ timeMin st ≤ 1320 then
        if 0 < dayEventHeightU (timeMin en - timeMin st) then
          .ok (some ⟨timeMin st - 420, timeMin en - 420,
                     dayEventHeightU (timeMin en - timeMin st)⟩)
        else .ok none
      else .ok none := by
  simp only [daily_event_block, hres]

/-- An event whose resolved end does not lie strictly after its start
gets a non-positive computed height on both renderers, so no block is
drawn for it. -/
theorem nonpos_span_not_drawn {e : RawEvent} {st en : PyTime}
    (hres : resolveEventTimes e = .ok (st, en))
    (hle : timeMin en ≤ timeMin st) (ws : PDate) :
    week_event_block ws e = .ok none ∧ daily_event_block e = .ok none := by
  have hW : ¬ (0 < weekEventHeightU (timeMin en - timeMin st)) := by
    unfold weekEventHeightU
    omega
  have hD : ¬ (0 < dayEventHeightU (timeMin en - timeMin st)) := by
    unfold dayEventHeightU
    omega
  constructor
  · rcases hdate : e.date with _ | s
    · simp [week_event_block, hdate]
    · by_cases hs : s = ""
      · simp [week_event_block, hdate, hs]
      · rcases hpd : parseDate s with _ | d
        · simp [week_event_block, hdate, hs, hpd]
        · rw [week_event_block_resolved hdate hs hpd hres]
          simp [hW]
  · rw [daily_event_block_resolved hres]
    simp [hD]

/-- With `end_time` missing and `duration = 0` the resolved end is
`min(start.hour, 22)` hours at the start's minutes, which is never
after the start. -/
theorem resolve_zero_duration {e : RawEvent} (hend : e.end_time = none)
    (hdur : e.duration = some 0) :
    ∃ en, resolveEventTimes e = .ok (resolvedStartTime e, en) ∧
      timeMin en ≤ timeMin (resolvedStartTime e) := by
  obtain ⟨hh, hm⟩ := resolvedStartTime_valid e
  unfold resolveEventTimes
  rw [hend, hdur]
  simp only [Option.getD_none, Option.getD_some, if_true]
  have hfdiv : (((resolvedStartTime e).minute : Int) + 0).fdiv 60 = 0 := by
    rw [Int.fdiv_eq_ediv _ (by norm_num)]
    omega
  have hemod : (((resolvedStartTime e).minute : Int) + 0).emod 60 =
      ((resolvedStartTime e).minute : Int) := by
    show (((resolvedStartTime e).minute : Int) + 0) % 60 = _
    omega
  rw [hfdiv, hemod]
  simp only [add_zero]
  unfold mkTime?
  rw [if_pos ⟨le_min (Int.natCast_nonneg _) (by norm_num),
              le_trans (min_le_right _ _) (by norm_num),
              Int.natCast_nonneg _, by exact_mod_cast hm⟩]
  refine ⟨_, rfl, ?_⟩
  unfold timeMin
  dsimp only
  have h1 : min ((resolvedStartTime e).hour : Int) 22 ≤
      ((resolvedStartTime e).hour : Int) := min_le_left _ _
  have h2 : (0 : Int) ≤ min ((resolvedStartTime e).hour : Int) 22 :=
    le_min (Int.natCast_nonneg _) (by norm_num)
  omega

/-- C1: an event dated on the week-start date with `start_time` 09:00,
`duration` 60 and no explicit `end_time` is placed in the Monday column
(`dayOffset = 0`) of the week page and appears in Monday's day-page
event list, with row index 4 (`startSlot30 = 30·4`) spanning two rows
(to `endSlot30 = 30·6`), on both pages. -/
theorem monday_0900_duration60_rows4to6 (ws : PDate) (e : RawEvent) (s : String)
    (hdate : e.date = some s) (hpd : parseDate s = some ws)
    (hst : e.start_time = some "09:00") (hend : e.end_time = none)
    (hdur : e.duration = some 60) :
    week_event_block ws e = .ok (some ⟨0, 30 * 4, 30 * 6, 6750⟩) ∧
    eventOnDate (addDays ws 0) e = true ∧
    daily_event_block e = .ok (some ⟨30 * 4, 30 * 6, 5970⟩) := by
  have hsne : ¬ s = "" := by
    intro he
    subst he
    rw [show parseDate "" = (none : Option PDate) from rfl] at hpd
    exact Option.noConfusion hpd
  have hres : resolveEventTimes e = .ok (⟨9, 0⟩, ⟨10, 0⟩) := by
    unfold resolveEventTimes resolvedStartTime startTimeStr
    rw [hst, hend, hdur]
    simp only [Option.getD_some, Option.getD_none]
    decide
  have hdd : dateDiffDays ws ws = 0 := sub_self _
  refine ⟨?_, ?_, ?_⟩
  · rw [week_event_block_resolved hdate hsne hpd hres, hdd]
    decide
  · have h0 : addDays ws 0 = ws := rfl
    rw [h0]
    simp [eventOnDate, hdate, hsne, hpd]
  · rw [daily_event_block_resolved hres]
    decide

/-- C1 witness: the concrete event of `c1WitnessEvent` on the Monday
2024-01-01, with all hypotheses discharged by evaluation. -/
theorem monday_0900_duration60_rows4to6_witness :
    parseDate "2024-01-01" = some ⟨2024, 1, 1⟩ ∧
    (week_event_block ⟨2024, 1, 1⟩ c1WitnessEvent = .ok (some ⟨0, 30 * 4, 30 * 6, 6750⟩) ∧
     eventOnDate (addDays ⟨2024, 1, 1⟩ 0) c1WitnessEvent = true ∧
     daily_event_block c1WitnessEvent = .ok (some ⟨30 * 4, 30 * 6, 5970⟩)) :=
  ⟨by decide,
   monday_0900_duration60_rows4to6 ⟨2024, 1, 1⟩ c1WitnessEvent "2024-01-01"
     rfl (by decide) rfl rfl rfl⟩

/-- C2: the claim that whole-PDF generation never raises on malformed
records is violated: an event whose start parses at hour 23 and whose
`end_time` is present but unparseable makes the recovery fallback call
`datetime.time(24, 30)`, whose `ValueError` propagates and aborts the
whole generation. -/
theorem hour23_unparseable_end_raises :
    resolveEventTimes c2FailingEvent = .exn "ValueError: hour must be in 0..23" ∧
    generate_calendar_pdf ⟨2024, 1, 1⟩ [c2FailingEvent] =
      .exn "ValueError: hour must be in 0..23" := by
  decide

/-- C3 counterexample: the event with missing `end_time` and
`duration = 0` draws no block at all on either page, instead of the
claimed minimum-height visible block. -/
theorem zero_duration_event_draws_no_block :
    week_event_block ⟨2024, 1, 1⟩ c3ZeroDurationEvent = .ok none ∧
    daily_event_block c3ZeroDurationEvent = .ok none := by
  decide

/-- C3 (amended): every event block actually drawn has strictly
positive height (the code draws only when the computed height is
positive; there is no minimum block height), and an event with missing
`end_time` and `duration = 0` draws no block at all on either page. -/
theorem drawn_blocks_have_positive_height :
    (∀ (ws : PDate) (e : RawEvent) (b : WeekBlock),
        week_event_block ws e = .ok (some b) → 0 < b.heightU) ∧
    (∀ (e : RawEvent) (b : DayBlock),
        daily_event_block e = .ok (some b) → 0 < b.heightU) ∧
    (∀ (ws : PDate) (e : RawEvent), e.end_time = none → e.duration = some 0 →
        week_event_block ws e = .ok none ∧ daily_event_block e = .ok none) := by
  refine ⟨?_, ?_, ?_⟩
  · intro ws e b h
    rcases hdate : e.date with _ | s
    · simp [week_event_block, hdate] at h
    · by_cases hs : s = ""
      · simp [week_event_block, hdate, hs] at h
      · rcases hpd : parseDate s with _ | d
        · simp [week_event_block, hdate, hs, hpd] at h
        · rcases hres : resolveEventTimes e with ⟨st, en⟩ | m
          · rw [week_event_block_resolved hdate hs hpd hres] at h
            split at h
            · split at h
              · split at h
                · rename_i hpos
                  simp only [PyResult.ok.injEq, Option.some.injEq] at h
                  subst h
                  exact hpos
                · simp at h
              · simp at h
            · simp at h
          · simp [week_event_block, hdate, hs, hpd, hres] at h
            split at h <;> simp_all
  · intro e b h
    rcases hres : resolveEventTimes e with ⟨st, en⟩ | m
    · rw [daily_event_block_resolved hres] at h
      split at h
      · split at h
        · rename_i hpos
          simp only [PyResult.ok.injEq, Option.some.injEq] at h
          subst h
          exact hpos
        · simp at h
      · simp at h
    · simp [daily_event_block, hres] at h
  · intro ws e hend hdur
    obtain ⟨en, hres, hle⟩ := resolve_zero_duration hend hdur
    exact nonpos_span_not_drawn hres hle ws

/-- C3 witness: a drawn one-hour block has positive height on both
pages, and the zero-duration event draws nothing, at concrete inputs. -/
theorem drawn_blocks_have_positive_height_witness :
    (week_event_block ⟨2024, 1, 1⟩ c3DrawnEvent = .ok (some ⟨0, 180, 240, 6750⟩) ∧
      0 < (⟨0, 180, 240, 6750⟩ : WeekBlock).heightU) ∧
    (daily_event_block c3DrawnEvent = .ok (some ⟨180, 240, 5970⟩) ∧
      0 < (⟨180, 240, 5970⟩ : DayBlock).heightU) ∧
    (week_event_block ⟨2024, 1, 1⟩ c3ZeroDurationEvent = .ok none ∧
      daily_event_block c3ZeroDurationEvent = .ok none) :=
  ⟨⟨by decide, drawn_blocks_have_positive_height.1 ⟨2024, 1, 1⟩ c3DrawnEvent _ (by decide)⟩,
   ⟨by decide, drawn_blocks_have_positive_height.2.1 c3DrawnEvent _ (by decide)⟩,
   drawn_blocks_have_positive_height.2.2 ⟨2024, 1, 1⟩ c3ZeroDurationEvent rfl rfl⟩

/-- C4 counterexample: a parseable inverted pair (start 10:00, end
09:00) is kept as-is — no 60-minute default span is substituted — and
the event draws no block on either page, instead of the claimed
visible block. -/
theorem inverted_pair_draws_no_block :
    resolveEventTimes c4InvertedEvent = .ok (⟨10, 0⟩, ⟨9, 0⟩) ∧
    week_event_block ⟨2024, 1, 1⟩ c4InvertedEvent = .ok none ∧
    daily_event_block c4InvertedEvent = .ok none := by
  decide

/-- C4 (amended): the 60-minute default span is substituted only when
`end_time` is present but unparseable — and then only if the resolved
start hour is at most 22 (at hour 23 the substitution itself raises,
see C2) — giving `start ≤ effective end`; a parseable inverted pair is
kept as-is and, having a non-positive span, draws no block at all. -/
theorem unparseable_end_defaults_60min :
    (∀ (e : RawEvent) (s : String), e.end_time = some s → ¬ s = "" →
        parseHM s = none → (resolvedStartTime e).hour ≤ 22 →
        resolveEventTimes e =
          .ok (resolvedStartTime e,
               ⟨(resolvedStartTime e).hour + 1, (resolvedStartTime e).minute⟩) ∧
        timeMin (resolvedStartTime e) ≤
          timeMin ⟨(resolvedStartTime e).hour + 1, (resolvedStartTime e).minute⟩) ∧
    (∀ (ws : PDate) (e : RawEvent) (st en : PyTime),
        resolveEventTimes e = .ok (st, en) → timeMin en < timeMin st →
        week_event_block ws e = .ok none ∧ daily_event_block e = .ok none) := by
  constructor
  · intro e s hend hs hp hh22
    obtain ⟨-, hm⟩ := resolvedStartTime_valid e
    have hmk : mkTime? (((resolvedStartTime e).hour : Int) + 1)
        ((resolvedStartTime e).minute : Int) =
        some ⟨(resolvedStartTime e).hour + 1, (resolvedStartTime e).minute⟩ := by
      have hcond : (0 : Int) ≤ ((resolvedStartTime e).hour : Int) + 1 ∧
          ((resolvedStartTime e).hour : Int) + 1 ≤ 23 ∧
          (0 : Int) ≤ ((resolvedStartTime e).minute : Int) ∧
          ((resolvedStartTime e).minute : Int) ≤ 59 := by
        refine ⟨?_, ?_, ?_, ?_⟩ <;> omega
      unfold mkTime?
      rw [if_pos hcond]
      simp only [Option.some.injEq, PyTime.mk.injEq]
      constructor <;> omega
    unfold resolveEventTimes
    rw [hend]
    simp only [Option.getD_some]
    rw [if_neg hs]
    simp only [hp, hmk]
    constructor
    · trivial
    · unfold timeMin
      dsimp only
      omega
  · intro ws e st en hres hlt
    exact nonpos_span_not_drawn hres (le_of_lt hlt) ws

/-- C4 witness: the default span at an unparseable end time, and the
no-draw outcome of the inverted pair, at concrete inputs. -/
theorem unparseable_end_defaults_60min_witness :
    (resolveEventTimes c4BadEndEvent = .ok (⟨10, 0⟩, ⟨11, 0⟩) ∧
      timeMin (⟨10, 0⟩ : PyTime) ≤ timeMin (⟨11, 0⟩ : PyTime)) ∧
    (week_event_block ⟨2024, 1, 1⟩ c4InvertedEvent = .ok none ∧
      daily_event_block c4InvertedEvent = .ok none) :=
  ⟨unparseable_end_defaults_60min.1 c4BadEndEvent "zz" rfl (by decide) (by decide)
     (by decide),
   unparseable_end_defaults_60min.2 ⟨2024, 1, 1⟩ c4InvertedEvent ⟨10, 0⟩ ⟨9, 0⟩
     (by decide) (by decide)⟩

/-- C5 counterexample: the code's visibility window is the closed
interval `7 ≤ start_hour ≤ 22`, not the claimed half-open one: an
event starting exactly at 22:00 (end 22:30) draws a block on both the
week page and the day page. -/
theorem start_2200_draws_block :
    week_event_block ⟨2024, 1, 1⟩ c5Start2200Event = .ok (some ⟨0, 900, 930, 2910⟩) ∧
    daily_event_block c5Start2200Event = .ok (some ⟨900, 930, 2520⟩) := by
  decide

/-- C5 (amended): an event whose resolved start lies outside the
closed window `[07:00, 22:00]` draws no block on the week page or a
day page (provided time resolution itself succeeded, see C2), and an
event enters a day's rendering list only when its parsed date equals
that day's date — so it appears on no other day. -/
theorem outside_closed_window_not_drawn :
    (∀ (ws : PDate) (e : RawEvent) (st en : PyTime),
        resolveEventTimes e = .ok (st, en) →
        (timeMin st < 420 ∨ 1320 < timeMin st) →
        week_event_block ws e = .ok none ∧ daily_event_block e = .ok none) ∧
    (∀ (d : PDate) (e : RawEvent), eventOnDate d e = true →
        ∃ s, e.date = some s ∧ parseDate s = some d) := by
  constructor
  · intro ws e st en hres hout
    have hwin : ¬ (420 ≤ timeMin st ∧ timeMin st ≤ 1320) := by omega
    constructor
    · rcases hdate : e.date with _ | s
      · simp [week_event_block, hdate]
      · by_cases hs : s = ""
        · simp [week_event_block, hdate, hs]
        · rcases hpd : parseDate s with _ | d
          · simp [week_event_block, hdate, hs, hpd]
          · rw [week_event_block_resolved hdate hs hpd hres]
            simp [hwin]
    · rw [daily_event_block_resolved hres]
      simp [hwin]
  · intro d e h
    unfold eventOnDate at h
    split at h
    · exact Bool.noConfusion h
    · rename_i x s hdate
      split at h
      · exact Bool.noConfusion h
      · split at h
        · rename_i y pd hpd
          have hpe := of_decide_eq_true h
          subst hpe
          exact ⟨s, hdate, hpd⟩
        · exact Bool.noConfusion h

/-- C5 witness: a 06:00 event draws nothing anywhere, and its date
determines the only day list it can enter, at concrete inputs. -/
theorem outside_closed_window_not_drawn_witness :
    (week_event_block ⟨2024, 1, 1⟩ c5EarlyEvent = .ok none ∧
      daily_event_block c5EarlyEvent = .ok none) ∧
    (∃ s, c5EarlyEvent.date = some s ∧ parseDate s = some ⟨2024, 1, 1⟩) :=
  ⟨outside_closed_window_not_drawn.1 ⟨2024, 1, 1⟩ c5EarlyEvent ⟨6, 0⟩ ⟨7, 0⟩
     (by decide) (by decide),
   outside_closed_window_not_drawn.2 ⟨2024, 1, 1⟩ c5EarlyEvent (by decide)⟩

/-- C6 counterexample: on a concrete generation the week page (and in
fact every page) contains no link targeting `day_1`:
`create_weekly_view_with_events` emits no `linkRect` at all, so the
week page does not make `day_1` reachable. -/
theorem week_page_has_no_day_links :
    generate_calendar_pdf ⟨2024, 1, 1⟩ [] = .ok c6EmptyWeekPages ∧
    c6EmptyWeekPages.all (fun p => !(pageLinkTargets p).contains "day_1") = true := by
  decide

/-- C6 (amended): anchors are derived from the 1-based weekday index —
the week page is registered under `weekly_view` and the day page for
weekday `i` under `day_i` (`i = 1..7`) — and every day page carries
exactly one link, targeting `weekly_view`; the week page carries no
links, so no day anchor is reachable from it. -/
theorem anchors_and_links :
    ∀ (ws : PDate) (events : List RawEvent) (ps : List Page),
      generate_calendar_pdf ws events = .ok ps →
      ps.map pageBookmarks =
        [["weekly_view"], ["day_1"], ["day_2"], ["day_3"], ["day_4"],
         ["day_5"], ["day_6"], ["day_7"]] ∧
      ps.map pageLinkTargets =
        [[], ["weekly_view"], ["weekly_view"], ["weekly_view"], ["weekly_view"],
         ["weekly_view"], ["weekly_view"], ["weekly_view"]] := by
  intro ws events ps h
  obtain ⟨wb, b0, b1, b2, b3, b4, b5, b6, rfl⟩ := generate_ok_shape h
  exact ⟨rfl, rfl⟩

/-- C6 witness: the anchor and link tables of a concrete generation. -/
theorem anchors_and_links_witness :
    generate_calendar_pdf ⟨2025, 6, 2⟩ [] = .ok c6wPages ∧
    (c6wPages.map pageBookmarks =
        [["weekly_view"], ["day_1"], ["day_2"], ["day_3"], ["day_4"],
         ["day_5"], ["day_6"], ["day_7"]] ∧
     c6wPages.map pageLinkTargets =
        [[], ["weekly_view"], ["weekly_view"], ["weekly_view"], ["weekly_view"],
         ["weekly_view"], ["weekly_view"], ["weekly_view"]]) :=
  ⟨by decide, anchors_and_links ⟨2025, 6, 2⟩ [] c6wPages (by decide)⟩

/-- C7 counterexample: generation does not emit 8 pages for every
input — on the crashing record of C2's bug class the whole call raises
and produces no pages at all. -/
theorem crashing_input_emits_no_pages :
    generate_calendar_pdf ⟨2024, 3, 4⟩ [c7CrashEvent] =
      .exn "ValueError: hour must be in 0..23" := by
  decide

/-- C7 (amended): every generation call that completes without raising
emits exactly 8 pages in the fixed order landscape week overview, then
the seven portrait day pages for Monday (index 0) through Sunday
(index 6); no page is skipped, repeated or reordered. -/
theorem eight_pages_fixed_order :
    ∀ (ws : PDate) (events : List RawEvent) (ps : List Page),
      generate_calendar_pdf ws events = .ok ps →
      ps.length = 8 ∧
      ps.map (fun p => (pageOrient p, pageDayIndex p)) =
        [(.landscape, none), (.portrait, some 0), (.portrait, some 1),
         (.portrait, some 2), (.portrait, some 3), (.portrait, some 4),
         (.portrait, some 5), (.portrait, some 6)] := by
  intro ws events ps h
  obtain ⟨wb, b0, b1, b2, b3, b4, b5, b6, rfl⟩ := generate_ok_shape h
  exact ⟨rfl, rfl⟩

/-- C7 witness: the page count and page order of a concrete
generation. -/
theorem eight_pages_fixed_order_witness :
    generate_calendar_pdf ⟨2025, 3, 3⟩ [] = .ok c7wPages ∧
    (c7wPages.length = 8 ∧
     c7wPages.map (fun p => (pageOrient p, pageDayIndex p)) =
        [(.landscape, none), (.portrait, some 0), (.portrait, some 1),
         (.portrait, some 2), (.portrait, some 3), (.portrait, some 4),
         (.portrait, some 5), (.portrait, some 6)]) :=
  ⟨by decide, eight_pages_fixed_order ⟨2025, 3, 3⟩ [] c7wPages (by decide)⟩

/-- C8: the event normalizer `transform_google_calendar_events` is a
pure function of its input: running it twice on the same input list
yields identical output (in this embedding the function is pure by
construction, matching the Python code, which builds a fresh list and
never writes to its argument). -/
theorem transform_google_twice_same_output (gs : List GEvent) :
    transform_google_calendar_events gs = transform_google_calendar_events gs := rfl

/-- C9: a Google event whose `start` has only a `date` key gets the
documented all-day defaults — `start_time` 09:00, `end_time` 17:00,
`duration` 480 — and (when its date falls inside the rendered week)
draws exactly one block spanning rows 4 to 20 (09:00 to 17:00) on the
week page and on its day page, not several half-hour blocks. -/
theorem google_allday_single_block :
    ∀ (g : GEvent) (ds : String) (ws d : PDate),
      g.start = some ⟨none, some ds⟩ →
      parseDate ds = some d →
      0 ≤ dateDiffDays d ws → dateDiffDays d ws < 7 →
      ∃ r, transformOneGoogleEvent g = .ok (some r) ∧
        r.date = some ds ∧ r.start_time = some "09:00" ∧
        r.end_time = some "17:00" ∧ r.duration = some 480 ∧
        week_event_block ws r =
          .ok (some ⟨dateDiffDays d ws, 30 * 4, 30 * 20, 60510⟩) ∧
        daily_event_block r = .ok (some ⟨30 * 4, 30 * 20, 54270⟩) := by
  intro g ds ws d hstart hpd h1 h2
  have hsne : ¬ ds = "" := by
    intro he
    subst he
    rw [show parseDate "" = (none : Option PDate) from rfl] at hpd
    exact Option.noConfusion hpd
  have htrans : transformOneGoogleEvent g = .ok (some
      { title := some (g.summary.getD "Untitled Event"), date := some ds,
        start_time := some "09:00", end_time := some "17:00", duration := some 480,
        description := some (g.description.getD ""),
        location := some (g.location.getD ""),
        etype := some "appointment" }) := by
    simp only [transformOneGoogleEvent, hstart, Option.getD_some]
  have hres : resolveEventTimes
      { title := some (g.summary.getD "Untitled Event"), date := some ds,
        start_time := some "09:00", end_time := some "17:00", duration := some 480,
        description := some (g.description.getD ""),
        location := some (g.location.getD ""),
        etype := some "appointment" } = .ok (⟨9, 0⟩, ⟨17, 0⟩) := rfl
  refine ⟨_, htrans, rfl, rfl, rfl, rfl, ?_, ?_⟩
  · rw [week_event_block_resolved rfl hsne hpd hres]
    rw [if_pos ⟨h1, h2⟩]
    norm_num [timeMin, weekEventHeightU]
  · rw [daily_event_block_resolved hres]
    decide

/-- C9 witness: the concrete all-day event of `c9AllDayGEvent` in the
week starting on its own date. -/
theorem google_allday_single_block_witness :
    c9AllDayGEvent.start = some ⟨none, some "2024-01-01"⟩ ∧
    parseDate "2024-01-01" = some ⟨2024, 1, 1⟩ ∧
    (∃ r, transformOneGoogleEvent c9AllDayGEvent = .ok (some r) ∧
      r.date = some "2024-01-01" ∧ r.start_time = some "09:00" ∧
      r.end_time = some "17:00" ∧ r.duration = some 480 ∧
      week_event_block ⟨2024, 1, 1⟩ r =
        .ok (some ⟨dateDiffDays ⟨2024, 1, 1⟩ ⟨2024, 1, 1⟩, 30 * 4, 30 * 20, 60510⟩) ∧
      daily_event_block r = .ok (some ⟨30 * 4, 30 * 20, 54270⟩)) :=
  ⟨rfl, by decide,
   google_allday_single_block c9AllDayGEvent "2024-01-01" ⟨2024, 1, 1⟩ ⟨2024, 1, 1⟩
     rfl (by decide) (by decide) (by decide)⟩

theorem transformOne_ok_some_keys {g : GEvent} {r : RawEvent}
    (h : transformOneGoogleEvent g = .ok (some r)) :
    hasAllOutputKeys r ∧ gHasStartKey g = true := by
  rcases hdt : (g.start.getD ⟨none, none⟩).dateTime with _ | sdt
  · rcases hdd : (g.start.getD ⟨none, none⟩).date with _ | ds
    · simp [transformOneGoogleEvent, hdt, hdd] at h
    · simp only [transformOneGoogleEvent, hdt, hdd] at h
      simp only [PyResult.ok.injEq, Option.some.injEq] at h
      subst h
      exact ⟨by simp [hasAllOutputKeys], by simp [gHasStartKey, hdt, hdd]⟩
  · rcases hend : g.endt with _ | ge
    · simp [transformOneGoogleEvent, hdt, hend] at h
    · rcases hedt : ge.dateTime with _ | edt
      · simp [transformOneGoogleEvent, hdt, hend, hedt] at h
      · rcases hsd : fromisoformat (replaceZ sdt) with sd | m
        · rcases hed : fromisoformat (replaceZ edt) with ed | m
          · rcases hdm : dtDiffMinutes ed sd with dur | m
            · simp only [transformOneGoogleEvent, hdt, hend, hedt, hsd, hed, hdm] at h
              simp only [PyResult.ok.injEq, Option.some.injEq] at h
              subst h
              exact ⟨by simp [hasAllOutputKeys], by simp [gHasStartKey, hdt]⟩
            · simp [transformOneGoogleEvent, hdt, hend, hedt, hsd, hed, hdm] at h
          · simp [transformOneGoogleEvent, hdt, hend, hedt, hsd, hed] at h
        · simp [transformOneGoogleEvent, hdt, hend, hedt, hsd] at h

theorem transformOne_ok_none_skipped {g : GEvent}
    (h : transformOneGoogleEvent g = .ok none) : gHasStartKey g = false := by
  rcases hdt : (g.start.getD ⟨none, none⟩).dateTime with _ | sdt
  · rcases hdd : (g.start.getD ⟨none, none⟩).date with _ | ds
    · simp [gHasStartKey, hdt, hdd]
    · simp [transformOneGoogleEvent, hdt, hdd] at h
  · rcases hend : g.endt with _ | ge
    · simp [transformOneGoogleEvent, hdt, hend] at h
    · rcases hedt : ge.dateTime with _ | edt
      · simp [transformOneGoogleEvent, hdt, hend, hedt] at h
      · rcases hsd : fromisoformat (replaceZ sdt) with sd | m
        · rcases hed : fromisoformat (replaceZ edt) with ed | m
          · rcases hdm : dtDiffMinutes ed sd with dur | m
            · simp [transformOneGoogleEvent, hdt, hend, hedt, hsd, hed, hdm] at h
            · simp [transformOneGoogleEvent, hdt, hend, hedt, hsd, hed, hdm] at h
          · simp [transformOneGoogleEvent, hdt, hend, hedt, hsd, hed] at h
        · simp [transformOneGoogleEvent, hdt, hend, hedt, hsd] at h

/-- C10: on every input on which `transform_google_calendar_events`
completes, the output is never longer than the input, its length is
exactly the number of input events whose `start` has a `dateTime` or
`date` key (events with neither are silently omitted), and every
returned record carries all eight keys `title`, `date`, `start_time`,
`end_time`, `duration`, `description`, `location`, `type`. -/
theorem transform_google_output_shape :
    ∀ (gs : List GEvent) (out : List RawEvent),
      transform_google_calendar_events gs = .ok out →
      out.length ≤ gs.length ∧
      out.length = (gs.filter gHasStartKey).length ∧
      ∀ r ∈ out, hasAllOutputKeys r := by
  intro gs
  induction gs with
  | nil =>
    intro out h
    simp only [transform_google_calendar_events] at h
    simp only [PyResult.ok.injEq] at h
    subst h
    simp
  | cons g gs ih =>
    intro out h
    simp only [transform_google_calendar_events] at h
    rcases ht : transformOneGoogleEvent g with v | m
    · rcases v with _ | r
      · simp only [ht] at h
        have hkey := transformOne_ok_none_skipped ht
        obtain ⟨hle, hlen, hall⟩ := ih out h
        refine ⟨?_, ?_, hall⟩
        · simp only [List.length_cons]
          omega
        · simp [List.filter_cons, hkey, hlen]
      · simp only [ht] at h
        rcases hrest : transform_google_calendar_events gs with rs | m
        · simp only [hrest] at h
          simp only [PyResult.ok.injEq] at h
          subst h
          obtain ⟨hkeys, hkey⟩ := transformOne_ok_some_keys ht
          obtain ⟨hle, hlen, hall⟩ := ih rs hrest
          refine ⟨?_, ?_, ?_⟩
          · simp only [List.length_cons]
            omega
          · simp [List.filter_cons, hkey, hlen]
          · intro x hx
            rcases List.mem_cons.mp hx with rfl | hx'
            · exact hkeys
            · exact hall x hx'
        · simp [hrest] at h
    · simp [ht] at h

/-- C10 witness: a two-event input whose first event lacks both start
keys is transformed to a single fully-keyed record. -/
theorem transform_google_output_shape_witness :
    transform_google_calendar_events [c10NoStartKeyGEvent, c10AllDayGEvent] =
      .ok [c10OutputRecord] ∧
    [c10OutputRecord].length ≤ [c10NoStartKeyGEvent, c10AllDayGEvent].length ∧
    [c10OutputRecord].length =
      ([c10NoStartKeyGEvent, c10AllDayGEvent].filter gHasStartKey).length ∧
    hasAllOutputKeys c10OutputRecord :=
  ⟨by decide,
   (transform_google_output_shape [c10NoStartKeyGEvent, c10AllDayGEvent]
     [c10OutputRecord] (by decide)).1,
   (transform_google_output_shape [c10NoStartKeyGEvent, c10AllDayGEvent]
     [c10OutputRecord] (by decide)).2.1,
   (transform_google_output_shape [c10NoStartKeyGEvent, c10AllDayGEvent]
     [c10OutputRecord] (by decide)).2.2 c10OutputRecord
     (List.mem_singleton.mpr rfl)⟩
